import Mathlib

/-
  Verification of the refocus realtime subscription lifecycle against its
  specification.

  The embedded code is the module ./realTime/setupSocketIO.js (present in
  the source tree concatenated into src/tests/view/rooms/utils/page.js)
  together with the ipWhitelist wiring of ./config.js.

  Modelling conventions:
  - The shared redis counter store is an association list from key to the
    stored integer.  A redis GET returns the stored decimal string or nil;
    a returned string is never empty, so in JS it is truthy even when the
    stored value is 0.  We model GET as returning an Option Int and map JS
    truthiness of the reply to Option.isSome.
  - The JS comparison (numOfConn <= ONE), where numOfConn is the GET reply
    (string or null), coerces null to 0 and a numeric string to its number;
    we model it as ((reply).getD 0 <= 1).
  - External I/O performed by a connection is recorded in an event trace so
    that ordering and frame claims can be stated.
  - Promise chains are not cancelled when a socket disconnects, and a
    listener registered with socket.on after the event already fired is
    never invoked.  The lifetime model below reflects both facts.
-/

/-- Redis GET on the counter store: the value stored under a key, if present. -/
def rget (s : List (String × Int)) (k : String) : Option Int :=
  (s.find? (fun p => p.1 == k)).map (fun p => p.2)

/-- Redis SET: store a value under a key, replacing any previous binding. -/
def rset : List (String × Int) → String → Int → List (String × Int)
  | [], k, v => [(k, v)]
  | p :: ps, k, v => if p.1 == k then (k, v) :: ps else p :: rset ps k v

/-- Redis DEL: remove every binding of a key. -/
def rdel : List (String × Int) → String → List (String × Int)
  | [], _ => []
  | p :: ps, k => if p.1 == k then rdel ps k else p :: rdel ps k

/-- Redis INCR: add one to the stored value, treating an absent key as 0;
returns the new value together with the updated store. -/
def rincr (s : List (String × Int)) (k : String) : Int × List (String × Int) :=
  ((rget s k).getD 0 + 1, rset s k ((rget s k).getD 0 + 1))

/-- Redis DECR: subtract one from the stored value, treating an absent key
as 0; returns the new value together with the updated store. -/
def rdecr (s : List (String × Int)) (k : String) : Int × List (String × Int) :=
  ((rget s k).getD 0 - 1, rset s k ((rget s k).getD 0 - 1))

/-- External I/O events performed while handling a connection, in order. -/
inductive Event where
  | sessionGet : String → Event
  | redisGet : String → Event
  | redisIncr : String → Event
  | redisDecr : String → Event
  | redisDel : String → Event
  | dbFindPersp : String → Event
  | nsInit : String → Event
  | nsDelete : String → Event
deriving DecidableEq

/-- Terminal status of a connection attempt. -/
inductive Outcome where
  | attached : Outcome
  | disconnected : Outcome
deriving DecidableEq

/-- Index of the first occurrence of an event in a trace. -/
def firstIdx (t : List Event) (e : Event) : Option Nat :=
  t.findIdx? (fun x => decide (x = e))

/-- Whether the first occurrence of one event strictly precedes the first
occurrence of another; false when either event is absent. -/
def occursBefore (t : List Event) (a b : Event) : Bool :=
  match firstIdx t a, firstIdx t b with
  | some i, some j => decide (i < j)
  | _, _ => false

/-- Whether an event is a durable mutation of the shared counter store. -/
def isCounterMutation : Event → Bool
  | Event.redisIncr _ => true
  | Event.redisDecr _ => true
  | Event.redisDel _ => true
  | _ => false

/-- Whether a trace contains any durable counter-store mutation. -/
def hasCounterMutation (t : List Event) : Bool := t.any isCounterMutation

/-- Whether an event is a session-store lookup. -/
def isSessionGet : Event → Bool
  | Event.sessionGet _ => true
  | _ => false

/-- Whether a trace contains a session-store lookup. -/
def hasSessionGet (t : List Event) : Bool := t.any isSessionGet

/-- Whether an event is a namespace creation call. -/
def isNsInit : Event → Bool
  | Event.nsInit _ => true
  | _ => false

/-- Whether a trace contains a namespace creation call. -/
def hasNsInit (t : List Event) : Bool := t.any isNsInit

/-- Whether an event is a namespace retirement call. -/
def isNsDelete : Event → Bool
  | Event.nsDelete _ => true
  | _ => false

/-- Whether a trace contains a namespace retirement call. -/
def hasNsDelete (t : List Event) : Bool := t.any isNsDelete

/-- Whether an event is a DECR of the given key. -/
def isDecrOf (k : String) : Event → Bool
  | Event.redisDecr k2 => k2 == k
  | _ => false

/-- Whether a trace contains a DECR of the given key. -/
def hasDecrOf (t : List Event) (k : String) : Bool :=
  t.any (isDecrOf k)

/-- sessionData.passport.user, as stored in the session store. -/
structure SessionUser where
  name : Option String
deriving DecidableEq

/-- sessionData.passport. -/
structure SessionPassport where
  user : Option SessionUser
deriving DecidableEq

/-- A session record held by the redis-backed session store. -/
structure SessionData where
  passport : Option SessionPassport
deriving DecidableEq

/-- The collaborators and shared state a connection runs against:
the requireAccessToken feature toggle, the session store, the outcome of
the external address whitelist check (rtUtils.isIpWhitelisted is not part
of the analysed sources; only its pass or throw behaviour is relevant
here), the set of perspective names present in the database, the shared
counter store, and the process-local namespace registry. -/
structure Env where
  requireAccessToken : Bool
  sessionStore : List (String × SessionData)
  ipOk : Bool
  db : List String
  store : List (String × Int)
  namespaces : List String
deriving DecidableEq

/-- One socket handshake: the raw cookie header, if any, and the topic
query parameter p, if any. -/
structure Handshake where
  cookie : Option String
  queryP : Option String
deriving DecidableEq

/-- The counter-store key namespace (named activePerspPrefix in the source). -/
def activePersp : String := "activePersp:"

/-- Match a literal character sequence at the head of a string, returning
the remainder on success. -/
def matchLit : List Char → List Char → Option (List Char)
  | [], s => some s
  | _ :: _, [] => none
  | p :: ps, c :: cs => if c = p then matchLit ps cs else none

/-- Consume characters up to (and including) the first dot, returning the
characters before it; fails when no dot follows. This is the semantics of
the greedy regex fragment matching zero or more non-dot characters
followed by a required dot. -/
def captureUptoDot : List Char → Option (List Char)
  | [] => none
  | c :: cs => if c = '.' then some [] else (captureUptoDot cs).map (fun r => c :: r)

/-- Attempt the SID_REX match starting at the head of the string: the
literal connect, one arbitrary character (the dot in the regex source is
unescaped, so it matches any character), the literal sid=s%3A, then the
captured session id up to a required dot. -/
def sidMatchAt (s : List Char) : Option (List Char) :=
  match matchLit ("connect".toList) s with
  | none => none
  | some rest =>
    match rest with
    | [] => none
    | _ :: rest2 =>
      match matchLit ("sid=s%3A".toList) rest2 with
      | none => none
      | some rest3 => captureUptoDot rest3

/-- Scan for the earliest position where SID_REX matches, as a JS regex
exec does. -/
def sidScan : List Char → Option (List Char)
  | [] => none
  | c :: cs =>
    match sidMatchAt (c :: cs) with
    | some r => some r
    | none => sidScan cs

/-- The session id extracted from a cookie header by SID_REX, if the regex
matches. On a match the JS result array always has length 2, so the
additional length check in the source never rejects a match. -/
def sidExtract (cookie : String) : Option String :=
  (sidScan cookie.toList).map (fun l => String.mk l)

/-- Attempt, at the head of the string, a match of the literal cookie
field shape named by the specification, with every character of
connect.sid=s%3A taken literally and the id running up to a required dot. -/
def literalSidAt (s : List Char) : Bool :=
  match matchLit ("connect.sid=s%3A".toList) s with
  | some rest => (captureUptoDot rest).isSome
  | none => false

/-- Scan of the literal cookie field shape. -/
def literalSidScan : List Char → Bool
  | [] => false
  | c :: cs => literalSidAt (c :: cs) || literalSidScan cs

/-- Following the claim and specification wording: whether the cookie
contains a field of the fixed literal form connect.sid=s%3A followed by a
session id and a dot-separated signature. Kept separate from sidExtract,
which embeds the regex actually in the source, so the two can be compared. -/
def matchesLiteralSidPattern (cookie : String) : Bool :=
  literalSidScan cookie.toList

/-- getUserFromSession: when the requireAccessToken toggle is on, look the
session id up in the session store and require a nested non-empty user
name (JS truthiness of each nested field); resolve with the name.  When
the toggle is off, resolve with the empty string without touching the
store.  The returned trace records whether the store was consulted. -/
def getUserFromSession (env : Env) (sid : String) : Option String × List Event :=
  if env.requireAccessToken then
    (match (env.sessionStore.find? (fun p => p.1 == sid)).map (fun p => p.2) with
     | some sd =>
       match sd.passport with
       | some pp =>
         match pp.user with
         | some u =>
           match u.name with
           | some nm => if nm = "" then none else some nm
           | none => none
         | none => none
       | none => none
     | none => none,
     [Event.sessionGet sid])
  else (some "", [])

/-- JS string interpolation of a possibly-undefined value: an absent query
parameter renders as the string undefined inside a template literal. -/
def jsStr : Option String → String
  | some s => s
  | none => "undefined"

/-- Modelled from the spec: perspective.findOne by name (the TopicResolver
collaborator; the Perspective model itself is not among the analysed
sources).  The database is modelled as the list of existing perspective
names; a query whose name is the JS value undefined (absent query
parameter) does not resolve, and the rejected lookup propagates to the
promise chain exactly like a not-found result. -/
def resolvePersp (db : List String) (q : Option String) : Bool :=
  match q with
  | some n => db.contains n
  | none => false

/-- Modelled from the spec: rtUtils.initializeNamespace is not among the
analysed sources; per the specification the lifecycle manager creates the
channel for a topic if absent and is idempotent per topic within a
process.  The registry is the list of topic names with a live channel. -/
def initializeNamespace (reg : List String) (name : String) : List String :=
  if reg.contains name then reg else name :: reg

/-- Modelled from the spec: rtUtils.deleteNamespace is not among the
analysed sources; per the specification retire detaches and discards the
local channel if present and is a no-op otherwise. -/
def deleteNamespace (reg : List String) (name : String) : List String :=
  reg.erase name

/-- Result of the subscription promise chain of a connection. -/
structure SubResult where
  outcome : Outcome
  store : List (String × Int)
  namespaces : List String
  trace : List Event
deriving DecidableEq

/-- The subscription promise chain started for an admitted socket
(setupSocketIO.js, the chain returned from the connection handler):
GET the counter key; when the reply is nil (the key is absent - a stored
string, even for the value 0, is truthy), resolve the perspective, on
success initialize the namespace and only then INCR the key, on a failed
lookup throw, which the surrounding catch turns into a disconnect; when
the counter key exists, INCR it without consulting the database at all. -/
def subscribeChain (env : Env) (q : Option String) : SubResult :=
  match rget env.store (activePersp ++ jsStr q) with
  | none =>
    if resolvePersp env.db q then
      ⟨Outcome.attached,
       (rincr env.store (activePersp ++ jsStr q)).2,
       initializeNamespace env.namespaces (jsStr q),
       [Event.redisGet (activePersp ++ jsStr q), Event.dbFindPersp (jsStr q),
        Event.nsInit (jsStr q), Event.redisIncr (activePersp ++ jsStr q)]⟩
    else
      ⟨Outcome.disconnected, env.store, env.namespaces,
       [Event.redisGet (activePersp ++ jsStr q), Event.dbFindPersp (jsStr q)]⟩
  | some _ =>
    ⟨Outcome.attached,
     (rincr env.store (activePersp ++ jsStr q)).2,
     env.namespaces,
     [Event.redisGet (activePersp ++ jsStr q), Event.redisIncr (activePersp ++ jsStr q)]⟩

/-- Result of the disconnect handler chain. -/
structure DiscResult where
  store : List (String × Int)
  namespaces : List String
  trace : List Event
  errored : Bool
deriving DecidableEq

/-- The disconnect handler chain (setupSocketIO.js): GET the counter key;
when the coerced reply is at most 1 (null coerces to 0), DEL the key
first, then resolve the perspective and delete its namespace, throwing a
ResourceNotFoundError - left unhandled in this chain - when the lookup
misses; when the reply exceeds 1, DECR the key. -/
def disconnectChain (env : Env) (q : Option String) : DiscResult :=
  if (rget env.store (activePersp ++ jsStr q)).getD 0 ≤ 1 then
    if resolvePersp env.db q then
      ⟨rdel env.store (activePersp ++ jsStr q),
       deleteNamespace env.namespaces (jsStr q),
       [Event.redisGet (activePersp ++ jsStr q), Event.redisDel (activePersp ++ jsStr q),
        Event.dbFindPersp (jsStr q), Event.nsDelete (jsStr q)], false⟩
    else
      ⟨rdel env.store (activePersp ++ jsStr q),
       env.namespaces,
       [Event.redisGet (activePersp ++ jsStr q), Event.redisDel (activePersp ++ jsStr q),
        Event.dbFindPersp (jsStr q)], true⟩
  else
    ⟨(rdecr env.store (activePersp ++ jsStr q)).2,
     env.namespaces,
     [Event.redisGet (activePersp ++ jsStr q), Event.redisDecr (activePersp ++ jsStr q)], false⟩

/-- Result of running the whole connection handler to completion. -/
structure ConnResult where
  outcome : Outcome
  store : List (String × Int)
  namespaces : List String
  trace : List Event
  handlerRegistered : Bool
deriving DecidableEq

/-- The connection handler of init (setupSocketIO.js): reject when the
cookie header is absent; reject when SID_REX finds no session id; load
the user from the session; check the source address against the
whitelist; on success register the disconnect listener and run the
subscription chain; any rejection in the promise chain is caught and the
socket is disconnected.  handlerRegistered records whether control
reached the socket.on disconnect registration. -/
def connect (env : Env) (hs : Handshake) : ConnResult :=
  match hs.cookie with
  | none => ⟨Outcome.disconnected, env.store, env.namespaces, [], false⟩
  | some cookie =>
    match sidExtract cookie with
    | none => ⟨Outcome.disconnected, env.store, env.namespaces, [], false⟩
    | some sid =>
      match (getUserFromSession env sid).1 with
      | none =>
        ⟨Outcome.disconnected, env.store, env.namespaces,
         (getUserFromSession env sid).2, false⟩
      | some _ =>
        if env.ipOk then
          ⟨(subscribeChain env hs.queryP).outcome,
           (subscribeChain env hs.queryP).store,
           (subscribeChain env hs.queryP).namespaces,
           (getUserFromSession env sid).2 ++ (subscribeChain env hs.queryP).trace,
           true⟩
        else
          ⟨Outcome.disconnected, env.store, env.namespaces,
           (getUserFromSession env sid).2, false⟩

/-- When, relative to the connection handler, the socket disconnects. -/
inductive DiscTiming where
  | duringSessionLookup : DiscTiming
  | afterChain : DiscTiming
deriving DecidableEq

/-- The counter store at the end of a connection lifetime.  A disconnect
while the session lookup is pending does not cancel the promise chain:
the chain continues and completes, while the disconnect listener, being
registered only after the event already fired, never runs.  A disconnect
after the chain completed runs the disconnect handler when its listener
was registered. -/
def lifetimeStore (env : Env) (hs : Handshake) (d : DiscTiming) : List (String × Int) :=
  match d with
  | DiscTiming.duringSessionLookup => (connect env hs).store
  | DiscTiming.afterChain =>
    if (connect env hs).handlerRegistered then
      (disconnectChain
        ⟨env.requireAccessToken, env.sessionStore, env.ipOk, env.db,
         (connect env hs).store, (connect env hs).namespaces⟩ hs.queryP).store
    else (connect env hs).store

/-- JS String.prototype.split on a colon: the maximal colon-free segments,
keeping empty segments. -/
def splitColonAux : List Char → List Char → List String
  | [], acc => [String.mk acc.reverse]
  | c :: cs, acc =>
    if c = ':' then String.mk acc.reverse :: splitColonAux cs []
    else splitColonAux cs (c :: acc)

/-- JS String.prototype.split applied with the colon separator. -/
def splitColon (s : String) : List String := splitColonAux s.toList []

/-- Whether a string starts with the given literal. -/
def strStartsWith (s pre : String) : Bool := (matchLit pre.toList s.toList).isSome

/-- The startup reconciliation setupNamespace (setupSocketIO.js): list every
counter-store key in the activePersp keyspace; for each key, GET its value
and parse it as an integer - the parsed count is then never consulted -
split the key on colons, and whenever the split has more than one part
(always true for keys in this keyspace) resolve the perspective named by
the second part and initialize its namespace; a failed lookup throws
inside an inner promise that is not returned, so it neither stops the scan
nor fails the reconciliation.  Returns the resulting namespace registry. -/
def setupNamespace (env : Env) : List String :=
  ((env.store.map (fun p => p.1)).filter (fun k => strStartsWith k activePersp)).foldl
    (fun reg key =>
      if 1 < (splitColon key).length then
        if resolvePersp env.db (some ((splitColon key).getD 1 "")) then
          initializeNamespace reg ((splitColon key).getD 1 "")
        else reg
      else reg)
    env.namespaces

/-- A handle-level view of the process-local namespace registry: each
created channel carries a distinct handle id, and nextId is the source of
fresh handles. -/
structure NsRegistry where
  entries : List (String × Nat)
  nextId : Nat
deriving DecidableEq

/-- Modelled from the spec: NamespaceLifecycleManager.ensure at the handle
level (rtUtils.initializeNamespace and the socket.io namespace map are not
among the analysed sources).  If a channel for the topic exists its handle
is returned unchanged; otherwise exactly one channel is created with a
fresh handle.  Within the single-threaded event loop the check and the
creation run without interleaving, so two concurrent calls execute in one
of the two sequential orders. -/
def ensureNs (r : NsRegistry) (name : String) : Nat × NsRegistry :=
  match r.entries.find? (fun p => p.1 == name) with
  | some p => (p.2, r)
  | none => (r.nextId, ⟨(name, r.nextId) :: r.entries, r.nextId + 1⟩)

/-- Number of channels registered for a topic. -/
def countName (r : NsRegistry) (name : String) : Nat :=
  (r.entries.filter (fun p => p.1 == name)).length

/-- An element of the configured admission list: an inclusive address
range pair, or a bare address. -/
inductive IpEntry where
  | range : String → String → IpEntry
  | addr : String → IpEntry
deriving DecidableEq

/-- Modelled from the spec: configUtil.parseIPlist is not among the
analysed sources; per the specification the whitelist is a list of
inclusive range pairs, and the default configuration string in config.js
line 49 denotes the single full range. -/
def iplist : List IpEntry := [IpEntry.range "0.0.0.0" "255.255.255.255"]

/-- JS Array.prototype.push: appends the element and evaluates to the new
length of the array. -/
def jsArrayPush (l : List IpEntry) (x : IpEntry) : List IpEntry × Nat :=
  (l ++ [x], l.length + 1)

/-- A JS value stored in a configuration field: a whitelist of entries or
a number. -/
inductive ConfigValue where
  | ranges : List IpEntry → ConfigValue
  | num : Nat → ConfigValue
deriving DecidableEq

/-- environment.build.ipWhitelist (config.js line 194): the field is
assigned the value of the expression iplist.push of the local address,
which in JS evaluates to the new array length. -/
def environmentBuildIpWhitelist : ConfigValue :=
  ConfigValue.num (jsArrayPush iplist (IpEntry.addr "::ffff:127.0.0.1")).2

/-- environment.development.ipWhitelist (config.js line 204): the field is
assigned the iplist array itself. -/
def environmentDevelopmentIpWhitelist : ConfigValue :=
  ConfigValue.ranges (jsArrayPush iplist (IpEntry.addr "::ffff:127.0.0.1")).1

/-- A session record with a fully populated nested user name. -/
def sdFull : SessionData := ⟨some ⟨some ⟨some "u1"⟩⟩⟩

/-- Counterexample input for claim C1: a stale positive counter for a
perspective that no longer exists in the database. -/
def c1env : Env := ⟨false, [], true, [], [("activePersp:ops", 2)], []⟩

/-- Counterexample handshake for claim C1. -/
def c1hs : Handshake := ⟨some "connect.sid=s%3Aabc.def", some "ops"⟩

/-- Witness input for claim C1: no counter key, topic absent from the db. -/
def c1wenv : Env := ⟨false, [], true, [], [], []⟩

/-- Witness handshake for claim C1. -/
def c1whs : Handshake := ⟨some "connect.sid=s%3Aabc.def", some "ops"⟩

/-- Counterexample input for claim C2: first subscriber of an existing
perspective. -/
def c2env : Env := ⟨false, [], true, ["ops"], [], []⟩

/-- Counterexample handshake for claim C2. -/
def c2hs : Handshake := ⟨some "connect.sid=s%3Aabc.def", some "ops"⟩

/-- Witness input for claim C2. -/
def c2wenv : Env := ⟨false, [], true, ["ops"], [], []⟩

/-- Failing input for claim C3: a counter key stored with value 0 for an
existing perspective. -/
def c3env : Env := ⟨false, [], true, ["ops"], [("activePersp:ops", 0)], []⟩

/-- Counterexample input for claim C4: admission succeeds via a session
lookup, the topic exists, no counter key yet. -/
def c4env : Env := ⟨true, [("abc", sdFull)], true, ["ops"], [], []⟩

/-- Counterexample handshake for claim C4. -/
def c4hs : Handshake := ⟨some "connect.sid=s%3Aabc.def", some "ops"⟩

/-- Witness input for claim C4: the gate rejects for want of a cookie. -/
def c4wenv : Env := ⟨false, [], true, [], [], []⟩

/-- Witness handshake for claim C4. -/
def c4whs : Handshake := ⟨none, some "ops"⟩

/-- Counterexample input for claim C5: one counted subscriber of an
existing perspective with a live local channel. -/
def c5env : Env := ⟨false, [], true, ["ops"], [("activePersp:ops", 1)], ["ops"]⟩

/-- Witness input for claim C5. -/
def c5wenv : Env := ⟨false, [], true, ["ops"], [("activePersp:ops", 1)], ["ops"]⟩

/-- Counterexample input for claim C6: admission succeeds, no counter key
and no perspective named undefined. -/
def c6env : Env := ⟨false, [], true, ["ops"], [], []⟩

/-- Counterexample handshake for claim C6: no topic query parameter. -/
def c6hs : Handshake := ⟨some "connect.sid=s%3Aabc.def", none⟩

/-- Witness input for claim C6. -/
def c6wenv : Env := ⟨false, [], true, ["ops"], [], []⟩

/-- Witness handshake for claim C6. -/
def c6whs : Handshake := ⟨some "connect.sid=s%3Aabc.def", none⟩

/-- Witness input for claim C7: an empty namespace registry. -/
def c7reg : NsRegistry := ⟨[], 0⟩

/-- Counterexample input for claim C8: a valid session and an existing
perspective, reached through a cookie that the source regex accepts even
though it does not carry the literal connect.sid field. -/
def c8env : Env := ⟨true, [("abc", sdFull)], true, ["ops"], [], []⟩

/-- Counterexample handshake for claim C8: the character between connect
and sid is an exclamation mark, not a dot. -/
def c8hs : Handshake := ⟨some "connect!sid=s%3Aabc.def", some "ops"⟩

/-- Witness input for claim C8. -/
def c8wenv : Env := ⟨true, [], true, [], [], []⟩

/-- Witness handshake for claim C8: no cookie header at all. -/
def c8whs : Handshake := ⟨none, some "ops"⟩

/-- Witness input for claim C9: counter at 1, topic gone from the db,
local channel still present. -/
def c9env : Env := ⟨false, [], true, [], [("activePersp:ops", 1)], ["ops"]⟩

/-- A DEL of a key removes every binding of it: reading the key back from
the deleted store yields nil. -/
theorem rget_rdel (s : List (String × Int)) (k : String) : rget (rdel s k) k = none := by
  induction s with
  | nil => rfl
  | cons p ps ih =>
    by_cases h : p.1 == k
    · simpa [rdel, h] using ih
    · have hstep : rdel (p :: ps) k = p :: rdel ps k := by simp [rdel, h]
      rw [hstep]
      unfold rget
      rw [List.find?_cons_of_neg _ (by simp [h])]
      exact ih

/-- The trace of getUserFromSession is a single session-store read when
the access-token policy is active and is empty otherwise. -/
theorem gus_snd (env : Env) (sid : String) :
    (getUserFromSession env sid).2 =
      if env.requireAccessToken then [Event.sessionGet sid] else [] := by
  unfold getUserFromSession
  by_cases h : env.requireAccessToken <;> simp [h]

/-- Claim C1 counterexample: with a stale positive counter (value 2) for a
perspective absent from persistent storage, a connecting client is NOT
disconnected - it is attached - and the durable counter is NOT left at its
pre-attempt value: the handler sees a truthy counter reply, never consults
persistence, and increments the counter to 3. -/
theorem claim_c1_counterexample :
    ¬ ((connect c1env c1hs).outcome = Outcome.disconnected ∧
       rget (connect c1env c1hs).store "activePersp:ops" =
         rget c1env.store "activePersp:ops") := by
  decide

/-- Claim C1, amended: if a client connects to a topic absent from
persistent storage AND no counter key exists for that topic, the attempt
ends with the socket disconnected and the counter store untouched; no
increment is ever applied, because on an absent counter key the handler
resolves the topic before incrementing. -/
theorem claim_c1_amended (env : Env) (hs : Handshake) (c sid u name : String)
    (hck : hs.cookie = some c) (hsid : sidExtract c = some sid)
    (huser : (getUserFromSession env sid).1 = some u) (hip : env.ipOk = true)
    (hq : hs.queryP = some name)
    (hdb : env.db.contains name = false)
    (habs : rget env.store (activePersp ++ name) = none) :
    (connect env hs).outcome = Outcome.disconnected ∧
    (connect env hs).store = env.store ∧
    hasCounterMutation (connect env hs).trace = false := by
  have hsub : subscribeChain env hs.queryP =
      ⟨Outcome.disconnected, env.store, env.namespaces,
       [Event.redisGet (activePersp ++ name), Event.dbFindPersp name]⟩ := by
    have hdb2 : name ∉ env.db := by simpa using hdb
    rw [hq]
    simp [subscribeChain, jsStr, habs, resolvePersp, hdb2]
  refine ⟨?_, ?_, ?_⟩
  · simp [connect, hck, hsid, huser, hip, hsub]
  · simp [connect, hck, hsid, huser, hip, hsub]
  · have ht := gus_snd env sid
    by_cases htk : env.requireAccessToken <;>
      simp [connect, hck, hsid, huser, hip, hsub, ht, htk,
        hasCounterMutation, isCounterMutation]

/-- Claim C1 witness: a concrete connection to a missing topic with no
counter key is disconnected and leaves the store unchanged. -/
theorem claim_c1_witness :
    (connect c1wenv c1whs).outcome = Outcome.disconnected ∧
    (connect c1wenv c1whs).store = c1wenv.store ∧
    hasCounterMutation (connect c1wenv c1whs).trace = false :=
  claim_c1_amended c1wenv c1whs "connect.sid=s%3Aabc.def" "abc" "" "ops"
    rfl (by decide) (by decide) rfl rfl (by decide) (by decide)

/-- Claim C2 counterexample: on the first-subscriber path the increment is
NOT applied before the channel ensure step - the namespace initialization
occurs at trace index 2 and the increment only at index 3, so channel
creation precedes the increment. -/
theorem claim_c2_counterexample :
    ¬ (occursBefore (connect c2env c2hs).trace
        (Event.redisIncr "activePersp:ops") (Event.nsInit "ops") = true) ∧
    firstIdx (connect c2env c2hs).trace (Event.nsInit "ops") = some 2 ∧
    firstIdx (connect c2env c2hs).trace (Event.redisIncr "activePersp:ops") = some 3 := by
  decide

/-- Claim C2, amended: for a subscription with an absent counter key to a
topic that resolves, the subscription chain performs, in order, the
counter read, the persistence lookup, the namespace ensure, and only then
the counter increment - so the ensure step precedes the increment; when
the counter key already exists, no ensure step occurs at all. -/
theorem claim_c2_amended (env : Env) (name : String)
    (habs : rget env.store (activePersp ++ name) = none)
    (hdb : env.db.contains name = true) :
    (subscribeChain env (some name)).trace =
      [Event.redisGet (activePersp ++ name), Event.dbFindPersp name,
       Event.nsInit name, Event.redisIncr (activePersp ++ name)] ∧
    (subscribeChain env (some name)).outcome = Outcome.attached := by
  have hdb2 : name ∈ env.db := by simpa using hdb
  simp [subscribeChain, jsStr, habs, resolvePersp, hdb2]

/-- Claim C2 witness: the concrete first-subscriber trace. -/
theorem claim_c2_witness :
    (subscribeChain c2wenv (some "ops")).trace =
      [Event.redisGet (activePersp ++ "ops"), Event.dbFindPersp "ops",
       Event.nsInit "ops", Event.redisIncr (activePersp ++ "ops")] ∧
    (subscribeChain c2wenv (some "ops")).outcome = Outcome.attached :=
  claim_c2_amended c2wenv "ops" (by decide) (by decide)

/-- Claim C3: evaluating the reconciliation at the failing input - a
counter key stored with value 0 for perspective ops - shows that
setupNamespace nevertheless creates the channel for ops, although its own
comment and the specification create channels only for counters greater
than zero (the parsed count is never consulted). -/
theorem claim_c3_theorem :
    rget c3env.store "activePersp:ops" = some 0 ∧
    setupNamespace c3env = ["ops"] := by
  decide

/-- Claim C4 counterexample: a socket that disconnects while the session
lookup is pending - before the counter increment step is reached - does
NOT leave the shared counter store unchanged: the promise chain is not
cancelled by the disconnection and still applies the increment, while the
disconnect listener, registered only after the event fired, never runs. -/
theorem claim_c4_counterexample :
    ¬ (lifetimeStore c4env c4hs DiscTiming.duringSessionLookup = c4env.store) := by
  decide

/-- Claim C4, amended: only a socket the admission gate rejects (so that
the disconnect listener registration is never reached) is guaranteed to
leave the shared counter store unchanged over its lifetime, whatever the
disconnect timing; such a connection performs no counter mutation at all. -/
theorem claim_c4_amended (env : Env) (hs : Handshake) (d : DiscTiming)
    (hreg : (connect env hs).handlerRegistered = false) :
    lifetimeStore env hs d = env.store ∧
    hasCounterMutation (connect env hs).trace = false := by
  have hbase : (connect env hs).store = env.store ∧
      hasCounterMutation (connect env hs).trace = false := by
    cases hc : hs.cookie with
    | none => simp [connect, hc, hasCounterMutation]
    | some c =>
      cases hx : sidExtract c with
      | none => simp [connect, hc, hx, hasCounterMutation]
      | some sid =>
        cases hu : (getUserFromSession env sid).1 with
        | none =>
          have ht := gus_snd env sid
          refine ⟨by simp [connect, hc, hx, hu], ?_⟩
          by_cases htk : env.requireAccessToken <;>
            simp [connect, hc, hx, hu, ht, htk, hasCounterMutation, isCounterMutation]
        | some u =>
          by_cases hip : env.ipOk
          · exfalso
            simp [connect, hc, hx, hu, hip] at hreg
          · have ht := gus_snd env sid
            refine ⟨by simp [connect, hc, hx, hu, hip], ?_⟩
            by_cases htk : env.requireAccessToken <;>
              simp [connect, hc, hx, hu, hip, ht, htk, hasCounterMutation, isCounterMutation]
  cases d with
  | duringSessionLookup => exact ⟨by simpa [lifetimeStore] using hbase.1, hbase.2⟩
  | afterChain =>
    refine ⟨?_, hbase.2⟩
    simp [lifetimeStore, hreg, hbase.1]

/-- Claim C4 witness: a cookieless socket leaves the store unchanged. -/
theorem claim_c4_witness :
    lifetimeStore c4wenv c4whs DiscTiming.duringSessionLookup = c4wenv.store ∧
    hasCounterMutation (connect c4wenv c4whs).trace = false :=
  claim_c4_amended c4wenv c4whs DiscTiming.duringSessionLookup (by decide)

/-- Claim C5 counterexample: on disconnect with the counter at 1, NO
decrement operation is applied to the counter - the handler deletes the
key outright after a plain read - although the key does end up removed and
the channel retired. -/
theorem claim_c5_counterexample :
    ¬ (hasDecrOf (disconnectChain c5env (some "ops")).trace "activePersp:ops" = true) ∧
    rget (disconnectChain c5env (some "ops")).store "activePersp:ops" = none ∧
    (disconnectChain c5env (some "ops")).namespaces = [] := by
  decide

/-- Claim C5, amended: on disconnect of a counted subscriber of a topic
still present in persistence, the handler reads the counter and branches
on the read value, not on the result of a decrement: when the value read
is at most 1 it deletes the counter key outright - issuing no decrement -
and retires the channel, so a disconnect at counter 1 leaves the key
removed and the channel retired; when the value read exceeds 1 it
decrements the counter and leaves the channel alone. -/
theorem claim_c5_amended (env : Env) (name : String) (n : Int)
    (hdb : env.db.contains name = true)
    (hget : rget env.store (activePersp ++ name) = some n) :
    (n ≤ 1 →
      rget (disconnectChain env (some name)).store (activePersp ++ name) = none ∧
      (disconnectChain env (some name)).namespaces = deleteNamespace env.namespaces name ∧
      hasDecrOf (disconnectChain env (some name)).trace (activePersp ++ name) = false) ∧
    (1 < n →
      (disconnectChain env (some name)).store = rset env.store (activePersp ++ name) (n - 1) ∧
      (disconnectChain env (some name)).namespaces = env.namespaces ∧
      hasNsDelete (disconnectChain env (some name)).trace = false) := by
  have hdb2 : name ∈ env.db := by simpa using hdb
  constructor
  · intro hn
    simp [disconnectChain, jsStr, hget, hn, resolvePersp, hdb2, rget_rdel,
      hasDecrOf, isDecrOf]
  · intro hn
    have hn2 : ¬ (n ≤ 1) := not_le.mpr hn
    simp [disconnectChain, jsStr, hget, hn2, rdecr, hasNsDelete, isNsDelete]

/-- Claim C5 witness: disconnect at counter 1 with the topic resolvable
removes the key, retires the channel, and issues no decrement. -/
theorem claim_c5_witness :
    rget (disconnectChain c5wenv (some "ops")).store (activePersp ++ "ops") = none ∧
    (disconnectChain c5wenv (some "ops")).namespaces = deleteNamespace c5wenv.namespaces "ops" ∧
    hasDecrOf (disconnectChain c5wenv (some "ops")).trace (activePersp ++ "ops") = false :=
  (claim_c5_amended c5wenv "ops" 1 (by decide) (by decide)).1 (by decide)

/-- Claim C6 counterexample: a connection without the topic query
parameter p, though admitted (the disconnect listener registration is
reached), does NOT remain connected: the handler proceeds with the
subscription using the interpolated name undefined, the perspective
lookup fails, and the socket is disconnected. -/
theorem claim_c6_counterexample :
    (connect c6env c6hs).handlerRegistered = true ∧
    ¬ ((connect c6env c6hs).outcome = Outcome.attached) ∧
    (connect c6env c6hs).trace =
      [Event.redisGet "activePersp:undefined", Event.dbFindPersp "undefined"] := by
  decide

/-- Claim C6, amended: a connection without the topic query parameter is
admitted but treated as subscribing to the interpolated topic name
undefined; when no counter key activePersp:undefined exists, the
perspective lookup fails and the socket is disconnected, with no counter
mutation and no channel created. -/
theorem claim_c6_amended (env : Env) (hs : Handshake) (c sid u : String)
    (hck : hs.cookie = some c) (hsid : sidExtract c = some sid)
    (huser : (getUserFromSession env sid).1 = some u) (hip : env.ipOk = true)
    (hq : hs.queryP = none)
    (habs : rget env.store (activePersp ++ "undefined") = none) :
    (connect env hs).handlerRegistered = true ∧
    (connect env hs).outcome = Outcome.disconnected ∧
    (connect env hs).store = env.store ∧
    hasNsInit (connect env hs).trace = false ∧
    hasCounterMutation (connect env hs).trace = false := by
  have hsub : subscribeChain env hs.queryP =
      ⟨Outcome.disconnected, env.store, env.namespaces,
       [Event.redisGet (activePersp ++ "undefined"), Event.dbFindPersp "undefined"]⟩ := by
    rw [hq]
    simp [subscribeChain, jsStr, habs, resolvePersp]
  have ht := gus_snd env sid
  refine ⟨?_, ?_, ?_, ?_, ?_⟩
  · simp [connect, hck, hsid, huser, hip, hsub]
  · simp [connect, hck, hsid, huser, hip, hsub]
  · simp [connect, hck, hsid, huser, hip, hsub]
  · by_cases htk : env.requireAccessToken <;>
      simp [connect, hck, hsid, huser, hip, hsub, ht, htk, hasNsInit, isNsInit]
  · by_cases htk : env.requireAccessToken <;>
      simp [connect, hck, hsid, huser, hip, hsub, ht, htk,
        hasCounterMutation, isCounterMutation]

/-- Claim C6 witness: a concrete admitted connection without p is
disconnected and mutates nothing. -/
theorem claim_c6_witness :
    (connect c6wenv c6whs).handlerRegistered = true ∧
    (connect c6wenv c6whs).outcome = Outcome.disconnected ∧
    (connect c6wenv c6whs).store = c6wenv.store ∧
    hasNsInit (connect c6wenv c6whs).trace = false ∧
    hasCounterMutation (connect c6wenv c6whs).trace = false :=
  claim_c6_amended c6wenv c6whs "connect.sid=s%3Aabc.def" "abc" ""
    rfl (by decide) (by decide) rfl rfl (by decide)

/-- Claim C7: two first-subscriber ensure calls for the same topic within
one process - which the single-threaded event loop executes in one of the
two sequential orders, symmetric here - produce exactly one created
channel, and both callers receive the same handle. -/
theorem claim_c7_theorem (r : NsRegistry) (name : String)
    (habs : countName r name = 0) :
    (ensureNs r name).1 = (ensureNs (ensureNs r name).2 name).1 ∧
    countName (ensureNs (ensureNs r name).2 name).2 name = 1 := by
  have hfe : r.entries.filter (fun p => p.1 == name) = [] := by
    simpa [countName, List.length_eq_zero] using habs
  have h1 : r.entries.find? (fun p => p.1 == name) = none := by
    rw [List.find?_eq_none]
    intro x hx hpx
    have hmem : x ∈ r.entries.filter (fun p => p.1 == name) :=
      List.mem_filter.mpr ⟨hx, hpx⟩
    simp [hfe] at hmem
  have e1 : ensureNs r name =
      (r.nextId, ⟨(name, r.nextId) :: r.entries, r.nextId + 1⟩) := by
    simp [ensureNs, h1]
  have e2 : ensureNs (⟨(name, r.nextId) :: r.entries, r.nextId + 1⟩ : NsRegistry) name
      = (r.nextId, ⟨(name, r.nextId) :: r.entries, r.nextId + 1⟩) := by
    simp [ensureNs, List.find?_cons]
  rw [e1, e2]
  refine ⟨rfl, ?_⟩
  simp [countName, List.filter_cons, hfe]

/-- Claim C7 witness: from an empty registry, two ensure calls for ops
yield one channel and equal handles. -/
theorem claim_c7_witness :
    (ensureNs c7reg "ops").1 = (ensureNs (ensureNs c7reg "ops").2 "ops").1 ∧
    countName (ensureNs (ensureNs c7reg "ops").2 "ops").2 "ops" = 1 :=
  claim_c7_theorem c7reg "ops" (by decide)

/-- Claim C8 counterexample: the cookie with an exclamation mark between
connect and sid does not carry the literal fixed pattern, yet the socket
is NOT disconnected immediately, a session-store lookup IS attempted, and
a counter mutation DOES occur - because the source regex leaves the dot of
connect.sid unescaped, so it accepts this cookie and extracts a session
id from it. -/
theorem claim_c8_counterexample :
    matchesLiteralSidPattern "connect!sid=s%3Aabc.def" = false ∧
    ¬ ((connect c8env c8hs).outcome = Outcome.disconnected ∧
       hasSessionGet (connect c8env c8hs).trace = false ∧
       hasCounterMutation (connect c8env c8hs).trace = false) := by
  decide

/-- Claim C8, amended: if the handshake has no cookie header, or the
source regex SID_REX - in which the dot of connect.sid matches any
character - finds no session id in the cookie, the socket is disconnected
immediately, no session-store lookup is attempted, and no counter
mutation occurs. -/
theorem claim_c8_amended (env : Env) (hs : Handshake)
    (h : hs.cookie.bind sidExtract = none) :
    (connect env hs).outcome = Outcome.disconnected ∧
    (connect env hs).store = env.store ∧
    hasSessionGet (connect env hs).trace = false ∧
    hasCounterMutation (connect env hs).trace = false := by
  cases hc : hs.cookie with
  | none => simp [connect, hc, hasSessionGet, hasCounterMutation]
  | some c =>
    have hx : sidExtract c = none := by simpa [hc] using h
    simp [connect, hc, hx, hasSessionGet, hasCounterMutation]

/-- Claim C8 witness: a cookieless handshake is disconnected with no
session lookup and no counter mutation. -/
theorem claim_c8_witness :
    (connect c8wenv c8whs).outcome = Outcome.disconnected ∧
    (connect c8wenv c8whs).store = c8wenv.store ∧
    hasSessionGet (connect c8wenv c8whs).trace = false ∧
    hasCounterMutation (connect c8wenv c8whs).trace = false :=
  claim_c8_amended c8wenv c8whs rfl

/-- Claim C9: in the disconnect teardown, when the counter value read is
at most 1 (an absent reply coercing to 0), the key is deleted before the
perspective is resolved - the trace is exactly the read, the delete, then
the lookup; when the topic is then not found the chain errors, the channel
is never retired, and the deleted key is not restored. -/
theorem claim_c9_theorem (env : Env) (name : String)
    (hdb : env.db.contains name = false)
    (hle : (rget env.store (activePersp ++ name)).getD 0 ≤ 1) :
    (disconnectChain env (some name)).trace =
      [Event.redisGet (activePersp ++ name), Event.redisDel (activePersp ++ name),
       Event.dbFindPersp name] ∧
    (disconnectChain env (some name)).errored = true ∧
    rget (disconnectChain env (some name)).store (activePersp ++ name) = none ∧
    (disconnectChain env (some name)).namespaces = env.namespaces ∧
    hasNsDelete (disconnectChain env (some name)).trace = false := by
  have hdb2 : name ∉ env.db := by simpa using hdb
  simp [disconnectChain, jsStr, hle, resolvePersp, hdb2, rget_rdel,
    hasNsDelete, isNsDelete]

/-- Claim C9 witness: disconnect at counter 1 for a topic gone from the
db deletes the key, then fails the lookup, leaving the channel in place. -/
theorem claim_c9_witness :
    (disconnectChain c9env (some "ops")).trace =
      [Event.redisGet (activePersp ++ "ops"), Event.redisDel (activePersp ++ "ops"),
       Event.dbFindPersp "ops"] ∧
    (disconnectChain c9env (some "ops")).errored = true ∧
    rget (disconnectChain c9env (some "ops")).store (activePersp ++ "ops") = none ∧
    (disconnectChain c9env (some "ops")).namespaces = c9env.namespaces ∧
    hasNsDelete (disconnectChain c9env (some "ops")).trace = false :=
  claim_c9_theorem c9env "ops" (by decide) (by decide)

/-- Claim C10: the build environment ipWhitelist is the number returned
by the push - the new array length 2 - and not a list of range entries;
for contrast, the development field receives the array itself (which, the
push having mutated it first, also carries the pushed local address). -/
theorem claim_c10_theorem :
    environmentBuildIpWhitelist = ConfigValue.num 2 ∧
    (¬ ∃ l, environmentBuildIpWhitelist = ConfigValue.ranges l) ∧
    environmentDevelopmentIpWhitelist =
      ConfigValue.ranges [IpEntry.range "0.0.0.0" "255.255.255.255",
        IpEntry.addr "::ffff:127.0.0.1"] := by
  refine ⟨rfl, ?_, rfl⟩
  rintro ⟨l, hl⟩
  simp [environmentBuildIpWhitelist, jsArrayPush, iplist] at hl
